import Mathlib

/-!
Shallow embedding of `src/src/main.rs`: a single gossip-broadcast node driven
by a Maelstrom-style harness.

Modelling conventions, kept uniform through the file:
* Rust `HashSet<usize>` becomes `Finset Nat` (set semantics; iteration order of
  a `HashSet<usize>` never influences a result value in the source, since every
  use ends in a set again).
* Rust `HashMap<K, V>` becomes an association list; `lookupAssoc` models
  `HashMap::get` and `insertAssoc` models `HashMap::insert` (replace the
  binding when the key is present, append it otherwise).
* The neighbor `HashSet<String>` in the topology becomes a `List String`
  recording one possible iteration order, because `Node::gossip` iterates that
  set and an early `return` makes the iteration order observable.
* Envelopes written to stdout are returned as a `List Message` in write order;
  the `StdoutLock` field of `Node` is dropped, being pure I/O plumbing.
* The random draw `seen.iter().choose_multiple(&mut rng, random_select)` is
  modelled by a `sample` oracle parameter; `validSample` records exactly what
  the `rand` library guarantees for it (a subset of the drawn-from set, of size
  `random_select` since `random_select ≤ seen.len()`).
* `(seen.len() as f32 * 0.2) as usize` truncates toward zero; for every set
  size below 2 ^ 24 the `f32` computation equals ⌊n / 5⌋ exactly (0.2f32
  exceeds 1/5 by a factor 1 + 2 ^ -26, too small to cross an integer after
  rounding in that range), which is how `random_select` is rendered.
* `Ulid::new().to_string()` is an oracle string parameter `ulid`.
* `Node::recv` returns `none` exactly where the Rust process panics for a
  protocol reason: a `Generate` arriving while `node_id` is `None`.
-/

/-- The tagged payload union (`enum Payload` in the source). -/
inductive Payload where
  | Init (node_id : String) (node_ids : List String)
  | InitOk
  | Echo (echo : String)
  | EchoOk (echo : String)
  | Generate
  | GenerateOk (id : String)
  | Topology (topology : List (String × List String))
  | TopologyOk
  | Broadcast (message : Nat)
  | BroadcastOk
  | Read
  | ReadOk (messages : Finset Nat)
  | Gossip (has_seen : Finset Nat)
  deriving DecidableEq

/-- `struct MessageBody`: optional correlation ids and the payload. -/
structure MessageBody where
  msg_id : Option Nat
  in_reply_to : Option Nat
  message : Payload
  deriving DecidableEq

/-- `struct Message`: the wire envelope. -/
structure Message where
  src : String
  dest : String
  body : MessageBody
  deriving DecidableEq

/-- `Message::send`: build the reply envelope for `self`. Source and
destination are swapped, `msg_id` is the request's `msg_id` plus one when
present, and `in_reply_to` echoes the request's `msg_id`. -/
def Message.send (self : Message) (payload : Payload) : Message :=
  { src := self.dest
    dest := self.src
    body :=
      { msg_id := self.body.msg_id.map (fun id => id + 1)
        in_reply_to := self.body.msg_id
        message := payload } }

/-- `HashMap::get` on the association-list model. -/
def lookupAssoc {α : Type} (k : String) : List (String × α) → Option α
  | [] => none
  | (k2, v) :: rest => if k2 = k then some v else lookupAssoc k rest

/-- `HashMap::insert` on the association-list model: replace the binding of
`k` when present, append it otherwise. -/
def insertAssoc {α : Type} (k : String) (v : α) : List (String × α) → List (String × α)
  | [] => [(k, v)]
  | (k2, v2) :: rest =>
      if k2 = k then (k, v) :: rest else (k2, v2) :: insertAssoc k v rest

/-- `struct Node`, minus the `StdoutLock` handle. -/
structure Node where
  node_id : Option String
  topology : List (String × List String)
  messages : Finset Nat
  node_has_seen : List (String × Finset Nat)
  deriving DecidableEq

/-- `(seen.len() as f32 * 0.2) as usize`: truncation of the product, which for
all realistic sizes (below 2 ^ 24) equals ⌊n / 5⌋. -/
def random_select (n : Nat) : Nat := n / 5

/-- `Node::find_gossip_messages`. The partition of `self.messages` by
`has_seen.contains` yields `seen = messages ∩ has_seen` and
`unseen = messages \ has_seen`; the random draw from `seen` is the oracle
argument `sample`, and the result extends `unseen` with it. -/
def find_gossip_messages (messages has_seen sample : Finset Nat) : Finset Nat :=
  (messages \ has_seen) ∪ sample

/-- What `choose_multiple(&mut rng, random_select)` guarantees about the drawn
`sample` inside `find_gossip_messages`: it is a subset of the `seen` part of
the partition, of size exactly `random_select seen.card` (the requested amount
never exceeds the population, since ⌊n / 5⌋ ≤ n). -/
def validSample (messages has_seen sample : Finset Nat) : Prop :=
  sample ⊆ messages ∩ has_seen ∧
    sample.card = random_select (messages ∩ has_seen).card

instance (messages has_seen sample : Finset Nat) :
    Decidable (validSample messages has_seen sample) :=
  inferInstanceAs (Decidable (And _ _))

/-- The per-neighbor computation inside the loop of `Node::gossip`:
`self.node_has_seen.get(node).map(|hs| self.find_gossip_messages(hs)).unwrap_or(self.messages.clone())`. -/
def Node.selectForNeighbor (node : Node) (sample : String → Finset Nat)
    (n : String) : Finset Nat :=
  match lookupAssoc n node.node_has_seen with
  | some has_seen => find_gossip_messages node.messages has_seen (sample n)
  | none => node.messages

/-- The gossip envelope built in `Node::gossip`: no `msg_id`, no
`in_reply_to`. -/
def gossipEnvelope (node_id n : String) (messages : Finset Nat) : Message :=
  { src := node_id
    dest := n
    body := { msg_id := none, in_reply_to := none, message := .Gossip messages } }

/-- The `for node in nodes` loop of `Node::gossip`. When the computed set is
empty the source executes `return`, leaving the whole function: no envelope is
produced for this neighbor nor for any later one. -/
def gossipLoop (node : Node) (node_id : String) (sample : String → Finset Nat) :
    List String → List Message
  | [] => []
  | n :: rest =>
      let msgs := node.selectForNeighbor sample n
      if msgs = ∅ then []
      else gossipEnvelope node_id n msgs :: gossipLoop node node_id sample rest

/-- `Node::gossip`: nothing is emitted when `node_id` is unset or the topology
has no entry for this node; otherwise run the neighbor loop. -/
def Node.gossip (node : Node) (sample : String → Finset Nat) : List Message :=
  match node.node_id with
  | none => []
  | some node_id =>
      match lookupAssoc node_id node.topology with
      | none => []
      | some nodes => gossipLoop node node_id sample nodes

/-- `Node::recv`: dispatch on the payload, returning the mutated node and the
replies written, or `none` where the Rust panics (`Generate` before `Init`).
`ulid` is the `Ulid::new().to_string()` oracle. -/
def Node.recv (node : Node) (ulid : String) (msg : Message) :
    Option (Node × List Message) :=
  match msg.body.message with
  | .Init node_id _ =>
      some ({ node with node_id := some node_id }, [msg.send .InitOk])
  | .Echo echo =>
      some (node, [msg.send (.EchoOk echo)])
  | .Generate =>
      match node.node_id with
      | none => none
      | some n => some (node, [msg.send (.GenerateOk (n ++ "-" ++ ulid))])
  | .Topology topology =>
      some ({ node with topology := topology }, [msg.send .TopologyOk])
  | .Broadcast message =>
      some ({ node with messages := insert message node.messages },
        [msg.send .BroadcastOk])
  | .Read =>
      some (node, [msg.send (.ReadOk node.messages)])
  | .Gossip has_seen =>
      some ({ node with
              messages := node.messages ∪ has_seen
              node_has_seen := insertAssoc msg.src has_seen node.node_has_seen },
        [])
  | .InitOk => some (node, [])
  | .EchoOk _ => some (node, [])
  | .GenerateOk _ => some (node, [])
  | .TopologyOk => some (node, [])
  | .BroadcastOk => some (node, [])
  | .ReadOk _ => some (node, [])

/-- The `Event::Gossip` arm of the event loop: the node state is untouched and
the gossip envelopes are written. -/
def Node.tick (node : Node) (sample : String → Finset Nat) : Node × List Message :=
  (node, node.gossip sample)

/-- The node state after handling one inbound message; when the Rust process
would panic there is no after-state, so the (dead) node keeps its state. -/
def nodeAfter (node : Node) (ulid : String) (msg : Message) : Node :=
  match node.recv ulid msg with
  | none => node
  | some (node2, _) => node2

/-- The sample size as the spec words it: `round(n × 0.2)` — rounding the
rational `n / 5` to the nearest integer (no tie can occur, as the fractional
part of `n / 5` is never one half). -/
def spec_round_select (n : Nat) : Nat := (2 * n + 5) / 10

lemma lookupAssoc_insertAssoc {α : Type} (k : String) (v : α)
    (l : List (String × α)) : lookupAssoc k (insertAssoc k v l) = some v := by
  induction l with
  | nil => simp [insertAssoc, lookupAssoc]
  | cons p rest ih =>
      obtain ⟨k2, v2⟩ := p
      by_cases h : k2 = k
      · simp [insertAssoc, lookupAssoc, h]
      · simp [insertAssoc, lookupAssoc, h, ih]

/-- Claim C2: handling `Gossip{has_seen}` unions `has_seen` into the value
set, exactly replaces the `node_has_seen` entry for the envelope's source with
`has_seen`, leaves the identity and topology untouched, and produces no
reply. -/
theorem recv_gossip_unions_and_overwrites (node : Node) (ulid src dest : String)
    (mid irt : Option Nat) (has_seen : Finset Nat) :
    ∃ node2 : Node,
      Node.recv node ulid ⟨src, dest, ⟨mid, irt, .Gossip has_seen⟩⟩ =
          some (node2, []) ∧
        node2.messages = node.messages ∪ has_seen ∧
        lookupAssoc src node2.node_has_seen = some has_seen ∧
        node2.node_id = node.node_id ∧
        node2.topology = node.topology := by
  refine ⟨_, rfl, rfl, ?_, rfl, rfl⟩
  exact lookupAssoc_insertAssoc src has_seen node.node_has_seen

/-- A node that already completed the handshake as `"n1"`, used to exhibit the
behavior of a second `Init`. -/
def initializedNode : Node :=
  { node_id := some "n1", topology := [], messages := ∅, node_has_seen := [] }

/-- Claim C4, counterexample: the `Init` arm assigns unconditionally, so a
second `Init` overwrites the recorded identity — it does not leave it
unchanged. Before, the identity is `"n1"`; after receiving
`Init{node_id:"n9"}` it is `"n9"`. -/
theorem second_init_overwrites_identity :
    initializedNode.node_id = some "n1" ∧
      (Node.recv initializedNode "u" ⟨"c1", "n1", ⟨some 1, none, .Init "n9" []⟩⟩).map
          (fun r => r.1.node_id) =
        some (some "n9") := by
  constructor
  · rfl
  · rfl

/-- Claim C4, amended: on receiving `Init{node_id, ..}` the node records
`node_id` unconditionally (last write wins; a second `Init` overwrites the
recorded identity), leaves all other state untouched, and replies `InitOk`. -/
theorem recv_init_records_and_replies (node : Node) (ulid src dest nid : String)
    (mid irt : Option Nat) (nids : List String) :
    ∃ (node2 : Node) (reply : Message),
      Node.recv node ulid ⟨src, dest, ⟨mid, irt, .Init nid nids⟩⟩ =
          some (node2, [reply]) ∧
        node2.node_id = some nid ∧
        node2.messages = node.messages ∧
        node2.topology = node.topology ∧
        node2.node_has_seen = node.node_has_seen ∧
        reply.body.message = .InitOk :=
  ⟨_, _, rfl, rfl, rfl, rfl, rfl, rfl⟩

/-- Claim C8: handling `Broadcast{m}` inserts `m` into the value set and
replies `BroadcastOk`; handling the same message again leaves the whole state
exactly as after the first insertion while producing the same `BroadcastOk`
reply. -/
theorem broadcast_idempotent (node : Node) (ulid src dest : String)
    (mid irt : Option Nat) (m : Nat) :
    ∃ (node1 : Node) (reply : Message),
      Node.recv node ulid ⟨src, dest, ⟨mid, irt, .Broadcast m⟩⟩ =
          some (node1, [reply]) ∧
        node1.messages = insert m node.messages ∧
        node1.node_id = node.node_id ∧
        node1.topology = node.topology ∧
        node1.node_has_seen = node.node_has_seen ∧
        reply.body.message = .BroadcastOk ∧
        Node.recv node1 ulid ⟨src, dest, ⟨mid, irt, .Broadcast m⟩⟩ =
          some (node1, [reply]) := by
  refine ⟨_, _, rfl, rfl, rfl, rfl, rfl, rfl, ?_⟩
  simp [Node.recv, Finset.insert_idem]

/-- Claim C6: the value set grows monotonically — handling any inbound
message only ever extends `messages`, and a gossip tick does not change the
node state at all. -/
theorem valueSet_monotone (node : Node) (ulid : String) (msg : Message)
    (sample : String → Finset Nat) :
    node.messages ⊆ (nodeAfter node ulid msg).messages ∧
      (node.tick sample).1 = node := by
  refine ⟨?_, rfl⟩
  rcases msg with ⟨src, dest, ⟨mid, irt, payload⟩⟩
  cases payload with
  | Init nid nids => simp [nodeAfter, Node.recv]
  | InitOk => simp [nodeAfter, Node.recv]
  | Echo e => simp [nodeAfter, Node.recv]
  | EchoOk e => simp [nodeAfter, Node.recv]
  | Generate =>
      cases h : node.node_id with
      | none => simp [nodeAfter, Node.recv, h]
      | some n => simp [nodeAfter, Node.recv, h]
  | GenerateOk i => simp [nodeAfter, Node.recv]
  | Topology t => simp [nodeAfter, Node.recv]
  | TopologyOk => simp [nodeAfter, Node.recv]
  | Broadcast m => simp [nodeAfter, Node.recv]
  | BroadcastOk => simp [nodeAfter, Node.recv]
  | Read => simp [nodeAfter, Node.recv]
  | ReadOk s => simp [nodeAfter, Node.recv]
  | Gossip hs => simp [nodeAfter, Node.recv]

/-- Claim C3, counterexample: the sample size the code computes is the
truncation `(n as f32 * 0.2) as usize`, not `round(n × 0.2)`. With
`already_acked = {1, 2, 3}` (three already-acknowledged values) the spec's
rounding asks for one sampled element, but the code draws zero: a one-element
sample is not a sample the code can produce, while the empty sample is. -/
theorem sample_size_is_truncated_not_rounded :
    spec_round_select 3 = 1 ∧
      random_select 3 = 0 ∧
      ({1, 2, 3} ∩ ({1, 2, 3} : Finset Nat)).card = 3 ∧
      ¬ validSample {1, 2, 3} {1, 2, 3} {1} ∧
      validSample {1, 2, 3} {1, 2, 3} ∅ := by decide

/-- Claim C3, amended: for every neighbor the gossip selection partitions the
value set into `already_acked = messages ∩ seen` and
`unacked = messages \ seen` and returns `unacked ∪ sample`, where the sample
is a subset of `already_acked` with exactly
`⌊|already_acked| × 0.2⌋ = |already_acked| / 5` elements (truncation, not
rounding); in particular the returned set is a subset of the value set. -/
theorem find_gossip_selection_spec (messages has_seen sample : Finset Nat)
    (h : validSample messages has_seen sample) :
    find_gossip_messages messages has_seen sample =
        (messages \ has_seen) ∪ sample ∧
      sample ⊆ messages ∩ has_seen ∧
      sample.card = (messages ∩ has_seen).card / 5 ∧
      find_gossip_messages messages has_seen sample ⊆ messages := by
  obtain ⟨hsub, hcard⟩ := h
  refine ⟨rfl, hsub, hcard, ?_⟩
  unfold find_gossip_messages
  exact Finset.union_subset Finset.sdiff_subset
    (hsub.trans Finset.inter_subset_left)

/-- Witness for C3's amended theorem at a concrete state: five values all
already acknowledged, so the sample holds ⌊5 / 5⌋ = 1 element. -/
theorem find_gossip_selection_spec_witness :
    find_gossip_messages {1, 2, 3, 4, 5} {1, 2, 3, 4, 5} {3} =
        (({1, 2, 3, 4, 5} : Finset Nat) \ {1, 2, 3, 4, 5}) ∪ {3} ∧
      ({3} : Finset Nat) ⊆ {1, 2, 3, 4, 5} ∩ {1, 2, 3, 4, 5} ∧
      ({3} : Finset Nat).card =
        (({1, 2, 3, 4, 5} : Finset Nat) ∩ {1, 2, 3, 4, 5}).card / 5 ∧
      find_gossip_messages {1, 2, 3, 4, 5} {1, 2, 3, 4, 5} {3} ⊆
        {1, 2, 3, 4, 5} :=
  find_gossip_selection_spec {1, 2, 3, 4, 5} {1, 2, 3, 4, 5} {3} (by decide)

/-- The state used to exhibit the `return` inside the gossip loop: node `"n1"`
holds value `5`, its topology entry lists `"n2"` then `"n3"`, and `"n2"` has
already reported having seen `5` while `"n3"` has never gossiped back. -/
def suppressedTickNode : Node :=
  { node_id := some "n1"
    topology := [("n1", ["n2", "n3"])]
    messages := {5}
    node_has_seen := [("n2", {5})] }

/-- Claim C1, evaluated at the failing input: the outgoing set computed for
neighbor `"n2"` is empty (one acknowledged value, sample size ⌊1 / 5⌋ = 0),
while the set computed for `"n3"` — which has never gossiped back — is the
full value set `{5}`; yet the tick emits no envelope at all, because the
empty set for `"n2"` hits a `return` that aborts the whole loop instead of
moving on to `"n3"`. Suppression for one neighbor therefore does affect the
other listed neighbors, contradicting the claim. -/
theorem gossip_empty_set_aborts_whole_tick :
    suppressedTickNode.selectForNeighbor (fun _ => ∅) "n2" = ∅ ∧
      suppressedTickNode.selectForNeighbor (fun _ => ∅) "n3" = {5} ∧
      validSample suppressedTickNode.messages {5} ∅ ∧
      suppressedTickNode.gossip (fun _ => ∅) = [] := by decide

/-- Every envelope produced by the neighbor loop is the gossip envelope of one
of the listed neighbors, carrying exactly the set `selectForNeighbor` computes
for it. -/
lemma gossipLoop_mem (node : Node) (nid : String) (sample : String → Finset Nat)
    (ns : List String) (env : Message) (h : env ∈ gossipLoop node nid sample ns) :
    ∃ n ∈ ns, env = gossipEnvelope nid n (node.selectForNeighbor sample n) := by
  induction ns with
  | nil => simp [gossipLoop] at h
  | cons n rest ih =>
      rw [gossipLoop] at h
      by_cases hm : node.selectForNeighbor sample n = ∅
      · simp [hm] at h
      · simp only [hm, if_false, List.mem_cons] at h
        rcases h with h | h
        · exact ⟨n, List.mem_cons_self n rest, h⟩
        · obtain ⟨n2, hn2, he⟩ := ih h
          exact ⟨n2, List.mem_cons_of_mem n hn2, he⟩

/-- Claim C5: first-contact full transfer — any gossip envelope a tick sends
to a neighbor that has never gossiped back (no `node_has_seen` entry) carries
the entirety of the node's current value set. -/
theorem first_contact_sends_full_valueSet (node : Node)
    (sample : String → Finset Nat) (N : String) (env : Message)
    (hN : lookupAssoc N node.node_has_seen = none)
    (henv : env ∈ node.gossip sample) (hdest : env.dest = N) :
    env.body.message = .Gossip node.messages := by
  unfold Node.gossip at henv
  split at henv
  · simp at henv
  · rename_i nid hid
    split at henv
    · simp at henv
    · rename_i ns htop
      obtain ⟨n, _, rfl⟩ := gossipLoop_mem node nid sample ns env henv
      have hn : n = N := hdest
      rw [hn]
      unfold Node.selectForNeighbor
      rw [hN]
      rfl

/-- The state for C5's witness: node `"a"` holds `{5}` and has the single
neighbor `"b"`, which has never gossiped back. -/
def firstContactNode : Node :=
  { node_id := some "a"
    topology := [("a", ["b"])]
    messages := {5}
    node_has_seen := [] }

/-- Witness for C5 at a concrete state: the envelope the tick sends to the
never-seen neighbor `"b"` carries the full value set `{5}`. -/
theorem first_contact_sends_full_valueSet_witness :
    (gossipEnvelope "a" "b" {5}).body.message = .Gossip firstContactNode.messages :=
  first_contact_sends_full_valueSet firstContactNode (fun _ => ∅) "b"
    (gossipEnvelope "a" "b" {5}) (by decide) (by decide) (by decide)

/-- Every reply the dispatcher writes while handling an inbound message is
built by `Message::send` on that very message: the reply-correlation facts all
flow through this single construction site. -/
lemma recv_reply_is_send (node : Node) (ulid : String) (msg : Message)
    (out : Node × List Message) (hout : Node.recv node ulid msg = some out)
    (reply : Message) (hr : reply ∈ out.2) :
    ∃ p, reply = Message.send msg p := by
  unfold Node.recv at hout
  split at hout
  all_goals try split at hout
  all_goals first
    | (obtain rfl : _ = out := Option.some.inj hout
       first
         | exact absurd hr (List.not_mem_nil reply)
         | exact ⟨_, List.mem_singleton.mp hr⟩)
    | exact Option.noConfusion hout

/-- Claim C7: a reply generated for a request carrying `msg_id = some i` has
source and destination swapped relative to the request, `in_reply_to = i` and
`msg_id = i + 1`. -/
theorem reply_correlation (node : Node) (ulid : String) (msg : Message) (i : Nat)
    (hmid : msg.body.msg_id = some i)
    (out : Node × List Message) (hout : Node.recv node ulid msg = some out)
    (reply : Message) (hr : reply ∈ out.2) :
    reply.src = msg.dest ∧
      reply.dest = msg.src ∧
      reply.body.in_reply_to = some i ∧
      reply.body.msg_id = some (i + 1) := by
  obtain ⟨p, rfl⟩ := recv_reply_is_send node ulid msg out hout reply hr
  simp [Message.send, hmid]

/-- The request used to witness C7: an `Echo` envelope carrying
`msg_id = some 5`. -/
def echoRequest : Message := ⟨"c1", "n1", ⟨some 5, none, .Echo "hi"⟩⟩

/-- The blank node the reply-correlation witnesses run on. -/
def freshNode : Node :=
  { node_id := none, topology := [], messages := ∅, node_has_seen := [] }

/-- Witness for C7 at the concrete echo request with `msg_id = some 5`. -/
theorem reply_correlation_witness :
    (Message.send echoRequest (.EchoOk "hi")).src = echoRequest.dest ∧
      (Message.send echoRequest (.EchoOk "hi")).dest = echoRequest.src ∧
      (Message.send echoRequest (.EchoOk "hi")).body.in_reply_to = some 5 ∧
      (Message.send echoRequest (.EchoOk "hi")).body.msg_id = some 6 :=
  reply_correlation freshNode "u" echoRequest 5 rfl
    (freshNode, [Message.send echoRequest (.EchoOk "hi")]) rfl
    (Message.send echoRequest (.EchoOk "hi")) (List.mem_singleton.mpr rfl)

/-- Claim C9: a `Generate` arriving before the handshake hits the
`unwrap_or_else(|| panic!(..))` — there is no result; once `node_id` is
assigned, handling `Generate` always succeeds and replies `GenerateOk` whose
id is the node id joined to the fresh unique token by a dash. -/
theorem generate_requires_identity (node : Node) (ulid src dest : String)
    (mid irt : Option Nat) :
    (node.node_id = none →
        Node.recv node ulid ⟨src, dest, ⟨mid, irt, .Generate⟩⟩ = none) ∧
      ∀ nid, node.node_id = some nid →
        Node.recv node ulid ⟨src, dest, ⟨mid, irt, .Generate⟩⟩ =
          some (node,
            [Message.send ⟨src, dest, ⟨mid, irt, .Generate⟩⟩
              (.GenerateOk (nid ++ "-" ++ ulid))]) := by
  constructor
  · intro h
    simp [Node.recv, h]
  · intro nid h
    simp [Node.recv, h]

/-- A node that completed the handshake as `"n7"`, for C9's witness. -/
def namedNode : Node :=
  { node_id := some "n7", topology := [], messages := ∅, node_has_seen := [] }

/-- Witness for C9: before `Init` the `Generate` handler has no result
(the process panics); after a handshake as `"n7"` it replies
`GenerateOk{id: "n7-01ARZ"}` for token `"01ARZ"`. -/
theorem generate_requires_identity_witness :
    Node.recv freshNode "01ARZ" ⟨"c2", "n7", ⟨some 3, none, .Generate⟩⟩ = none ∧
      Node.recv namedNode "01ARZ" ⟨"c2", "n7", ⟨some 3, none, .Generate⟩⟩ =
        some (namedNode,
          [Message.send ⟨"c2", "n7", ⟨some 3, none, .Generate⟩⟩
            (.GenerateOk ("n7" ++ "-" ++ "01ARZ"))]) :=
  ⟨(generate_requires_identity freshNode "01ARZ" "c2" "n7" (some 3) none).1 rfl,
    (generate_requires_identity namedNode "01ARZ" "c2" "n7" (some 3) none).2 "n7" rfl⟩

/-- Claim C10: a reply's `msg_id` is present exactly when the request's is;
when the request carries no `msg_id`, the reply's `msg_id` and `in_reply_to`
are both absent. -/
theorem reply_msg_id_mirrors_request (node : Node) (ulid : String) (msg : Message)
    (out : Node × List Message) (hout : Node.recv node ulid msg = some out)
    (reply : Message) (hr : reply ∈ out.2) :
    (msg.body.msg_id = none →
        reply.body.msg_id = none ∧ reply.body.in_reply_to = none) ∧
      (reply.body.msg_id.isSome ↔ msg.body.msg_id.isSome) := by
  obtain ⟨p, rfl⟩ := recv_reply_is_send node ulid msg out hout reply hr
  constructor
  · intro h
    simp [Message.send, h]
  · simp [Message.send]

/-- The request used to witness C10: a `Read` envelope with no `msg_id`. -/
def readRequest : Message := ⟨"c3", "n1", ⟨none, none, .Read⟩⟩

/-- Witness for C10 at a concrete `Read` request without `msg_id`: the reply
carries neither a `msg_id` nor an `in_reply_to`. -/
theorem reply_msg_id_mirrors_request_witness :
    (readRequest.body.msg_id = none →
        (Message.send readRequest (.ReadOk ∅)).body.msg_id = none ∧
          (Message.send readRequest (.ReadOk ∅)).body.in_reply_to = none) ∧
      ((Message.send readRequest (.ReadOk ∅)).body.msg_id.isSome ↔
        readRequest.body.msg_id.isSome) :=
  reply_msg_id_mirrors_request freshNode "u" readRequest
    (freshNode, [Message.send readRequest (.ReadOk freshNode.messages)]) rfl
    (Message.send readRequest (.ReadOk ∅)) (List.mem_singleton.mpr rfl)
